import Mathlib

/-
Verification of `latex_cli.py`: a shallow embedding of the interactive
LaTeX-preview CLI (REPL loop, compiler invoker with temp-workspace
cleanup, viewer launcher, PDF viewer process, and entry-point dispatch),
together with theorems settling the specification's claims about it.

The file system is modelled as a list of the paths currently present.
Subprocess behaviour (the external LaTeX compiler, the viewer child
process) is a parameter of the model: a `CompilerBehavior` records the
exit status, the captured stdout/stderr text, and the artifact files the
compiler creates.  Console output and process launches are recorded as
explicit event lists.
-/

namespace LatexCli

/-! ## Configuration constants (latex_cli.py, lines 7-10) -/

def TEMP_DIR_NAME : String := "latex_temp"

def TEMP_FILENAME : String := "_temp"

def IMAGE_DPI : Nat := 200

/-- `base_path = os.path.join(temp_dir, TEMP_FILENAME)` with the temp dir
itself at `os.path.join(os.getcwd(), TEMP_DIR_NAME)`; paths are modelled
relative to the working directory. -/
def base_path : String := TEMP_DIR_NAME ++ "/" ++ TEMP_FILENAME

def tex_path : String := base_path ++ ".tex"

def pdf_path : String := base_path ++ ".pdf"

/-- The four artifact extensions cleaned up after a compile
(latex_cli.py, line 167). -/
def artifactExts : List String := [".tex", ".aux", ".log", ".pdf"]

/-! ## Python string-operation models -/

/-- Python `str.rstrip("\n")`: removes every trailing newline character. -/
def pyRstripNewlines (s : String) : String :=
  String.mk ((s.data.reverse.dropWhile (fun c => c = '\n')).reverse)

/-- Python `str.strip()`: removes whitespace from both ends. -/
def pyStrip (s : String) : String :=
  String.mk (((s.data.dropWhile Char.isWhitespace).reverse.dropWhile
    Char.isWhitespace).reverse)

/-- Python `str.lower()` (for the ASCII text this program compares). -/
def pyLower (s : String) : String :=
  String.mk (s.data.map Char.toLower)

/-- Split a character list at newline characters (the separators are
dropped; `n + 1` newlines yield `n + 1` boundaries). -/
def splitAtNewlines (l : List Char) (acc : List Char) : List (List Char) :=
  match l with
  | [] => [acc.reverse]
  | c :: rest =>
    if c = '\n' then acc.reverse :: splitAtNewlines rest []
    else splitAtNewlines rest (c :: acc)

/-- Python `str.splitlines()` for text whose only line terminator is
`'\n'` (which holds for text captured from a subprocess in text mode,
where universal-newline translation has already been applied): splits on
newline characters, with no empty final entry for a trailing newline, and
`[]` for the empty string. -/
def pySplitlines (s : String) : List String :=
  if s.data = [] then []
  else
    let parts := (splitAtNewlines s.data []).map String.mk
    if s.data.getLast? = some '\n' then parts.dropLast else parts

/-- Python `str.startswith(pre)`. -/
def pyStartsWith (s marker : String) : Bool :=
  marker.data.isPrefixOf s.data

/-! ## REPL loop model (latex_cli.py, `main_cli_loop`, lines 176-206)

One `replStep` models the body of the `while True` loop after the prompt
has been printed and one read has completed: either a line string was
returned by `sys.stdin.readline()` (the empty string meaning
end-of-input) or a keyboard interrupt arrived during the read. -/

/-- The temp workspace directory as seen by the REPL's exit handler:
whether the directory exists and which files it contains. -/
structure Workspace where
  dirExists : Bool
  dirFiles : List String
  deriving Repr, DecidableEq

/-- `shutil.rmtree(temp_dir, ignore_errors=True)`: with `rmErr = true` a
removal error occurs and is swallowed (the tree is left in place and the
call still returns normally); otherwise the directory and its contents
are gone. -/
def shutil_rmtree (rmErr : Bool) (ws : Workspace) : Workspace :=
  if rmErr then ws else ⟨false, []⟩

/-- State carried across REPL iterations: the accumulated line buffer
(`lines` in the source) and the workspace. -/
structure ReplState where
  buffer : List String
  ws : Workspace
  deriving Repr, DecidableEq

/-- What one loop iteration read: a line from stdin (possibly `""` for
end-of-input) or a keyboard interrupt. -/
inductive ReplInput where
  | line (s : String)
  | interrupt
  deriving Repr, DecidableEq

/-- Observable outcome of one loop iteration: the successor state, the
snippets passed to `run_latex_compiler` (in order), the messages printed,
and whether the loop `break`s. -/
structure ReplStepResult where
  state : ReplState
  compiles : List String
  printed : List String
  exited : Bool
  deriving Repr, DecidableEq

/-- The `except (KeyboardInterrupt, EOFError)` handler (lines 201-206):
print the exit notice, remove the temp directory if it exists (errors
ignored), and `break`. -/
def replExit (rmErr : Bool) (st : ReplState) : ReplStepResult :=
  { state := { st with ws := if st.ws.dirExists then shutil_rmtree rmErr st.ws else st.ws }
    compiles := []
    printed := ["\nExiting."]
    exited := true }

/-- One iteration of the REPL loop body (lines 187-206). -/
def replStep (rmErr : Bool) (st : ReplState) (inp : ReplInput) : ReplStepResult :=
  match inp with
  | .interrupt => replExit rmErr st
  | .line s =>
    if s = "" then
      -- `if not line: raise EOFError`, caught by the handler below.
      replExit rmErr st
    else if pyLower (pyStrip s) = ":c" then
      if st.buffer = [] then
        { state := st, compiles := [], printed := ["No code to compile."], exited := false }
      else
        { state := { st with buffer := [] }
          compiles := [String.intercalate "\n" st.buffer]
          printed := []
          exited := false }
    else
      { state := { st with buffer := st.buffer ++ [pyRstripNewlines s] }
        compiles := []
        printed := []
        exited := false }

/-! ## Compiler invoker model (latex_cli.py, `run_latex_compiler`, lines 94-173) -/

/-- Result of `subprocess.run(["pdflatex", ...], capture_output=True,
text=True, ...)`: the exit status and the separately captured stdout and
stderr texts. -/
structure ProcResult where
  returncode : Int
  stdout : String
  stderr : String
  deriving Repr, DecidableEq

/-- Behaviour of one invocation of the external compiler: the process
result together with the files the compiler creates in the workspace
(e.g. the `.log`, `.aux` and, on success, the `.pdf`). -/
structure CompilerBehavior where
  result : ProcResult
  created : List String
  deriving Repr, DecidableEq

/-- Generic message printed when no `!`-marker line is found
(latex_cli.py, line 136). -/
def unknownErrorText : String := "An unknown error occurred. Check the .log file."

/-- Lines 135-140: split the captured text into lines, scan for the first
line starting with `!`, and report that line together with the following
four (`log_lines[i : i + 5]`); fall back to the generic message. -/
def errorSnippetFromText (text : String) : String :=
  let log_lines := pySplitlines text
  match log_lines.findIdx? (fun l => pyStartsWith l "!") with
  | some i => String.intercalate "\n" ((log_lines.drop i).take 5)
  | none => unknownErrorText

/-- The error-scan specified by the spec's words ("scan the captured
combined stdout/stderr output"): the same scan, but over the stdout and
stderr texts combined.  Declared only to be compared with the scan the
code performs, which reads `process.stdout` alone. -/
def errorSnippetCombinedSpec (r : ProcResult) : String :=
  errorSnippetFromText (r.stdout ++ r.stderr)

/-- Creating a file (`open(path, "w")` / a compiler write): the path is
present afterwards; the model keeps each present path once. -/
def insertPath (fs : List String) (p : String) : List String :=
  if p ∈ fs then fs else p :: fs

/-- `os.remove(path)`: raises (as an `Except.error`) when the file is
absent or when the file system refuses the removal (`oserr`). -/
def os_remove (oserr : String → Bool) (fs : List String) (p : String) :
    Except String (List String) :=
  if p ∉ fs then .error "FileNotFoundError"
  else if oserr p then .error "OSError"
  else .ok (fs.filter (fun q => q ≠ p))

/-- Lines 168-173, one loop body: `if os.path.exists(filepath):
os.remove(filepath)` wrapped in `try ... except OSError: pass` — a
removal error leaves the file in place but is suppressed. -/
def tryRemovePath (oserr : String → Bool) (fs : List String) (p : String) : List String :=
  if p ∈ fs then
    match os_remove oserr fs p with
    | .ok fs' => fs'
    | .error _ => fs
  else fs

/-- Lines 166-173: delete the four generated artifacts for the fixed
base name, suppressing deletion errors. -/
def cleanupArtifacts (oserr : String → Bool) (fs : List String) : List String :=
  artifactExts.foldl (fun acc ext => tryRemovePath oserr acc (base_path ++ ext)) fs

/-- Observable events of one compile attempt, in order: console prints
and the launch of the viewer child process. -/
inductive CompileEvent where
  | printed (s : String)
  | viewerLaunched
  deriving Repr, DecidableEq

/-- Outcome of `run_latex_compiler`: the file system on return and the
events that occurred. -/
structure CompileOutcome where
  fs : List String
  events : List CompileEvent
  deriving Repr, DecidableEq

/-- File system after line 116: the wrapped `.tex` source has been
written to the workspace's fixed path. -/
def fsAfterWrite (fs0 : List String) : List String :=
  insertPath fs0 tex_path

/-- File system after the compiler subprocess returns (line 131): the
compiler has created its output files in the workspace. -/
def fsAfterCompile (beh : CompilerBehavior) (fs0 : List String) : List String :=
  beh.created.foldl insertPath (fsAfterWrite fs0)

/-- `run_latex_compiler` (lines 94-173).  `viewerFails` says whether
spawning/writing to the viewer process raises (the `except` at line 163);
`oserr` says which paths `os.remove` fails on; `beh` is the compiler's
behaviour.  Note that when the compiler exits zero but the expected PDF
is absent, the `return` at line 147 leaves the function before the
cleanup loop at lines 166-173 runs. -/
def run_latex_compiler (beh : CompilerBehavior) (viewerFails : Bool)
    (oserr : String → Bool) (fs0 : List String) : CompileOutcome :=
  let fs2 := fsAfterCompile beh fs0
  if beh.result.returncode ≠ 0 then
    { fs := cleanupArtifacts oserr fs2
      events := [.printed "Compiling...",
                 .printed "\n--- LaTeX Compilation Error ---",
                 .printed (errorSnippetFromText beh.result.stdout)] }
  else
    if pdf_path ∉ fs2 then
      -- early `return` (line 147): the cleanup loop is skipped.
      { fs := fs2
        events := [.printed "Compiling...",
                   .printed "Compilation successful! Displaying preview...",
                   .printed "Error: PDF file was not created by the compiler."] }
    else
      { fs := cleanupArtifacts oserr fs2
        events := [.printed "Compiling...",
                   .printed "Compilation successful! Displaying preview..."] ++
          (if viewerFails then [.printed "\n--- Preview Generation Error ---"]
           else [.viewerLaunched]) }

/-! ## Viewer process model (latex_cli.py, `show_pdf_viewer`, lines 13-91) -/

/-- First page of a decoded PDF as the viewer uses it: the extracted
plain text and the rasterized bitmap's dimensions. -/
structure PdfPage where
  text : String
  width : Nat
  height : Nat
  deriving Repr, DecidableEq

/-- Observable actions of the viewer process. -/
inductive ViewerAction where
  | docOpened
  | windowShown (page : PdfPage)
  deriving Repr, DecidableEq

/-- `show_pdf_viewer` (lines 13-91): read all stdin bytes; on empty
input return immediately (lines 27-29) with no action; otherwise decode
and display, with any exception swallowed by the top-level handler
(lines 89-91).  `decode` models `fitz.open`/`load_page`/rendering, which
may raise. -/
def show_pdf_viewer (decode : List Nat → Except String PdfPage)
    (stdinBytes : List Nat) : List ViewerAction :=
  if stdinBytes = [] then []
  else
    match decode stdinBytes with
    | .ok page => [.docOpened, .windowShown page]
    | .error _ => [.docOpened]

/-! ## Entry-point dispatch (latex_cli.py, lines 209-216) -/

inductive ProgramMode where
  | viewer
  | repl
  deriving Repr, DecidableEq

/-- `if len(sys.argv) > 1 and sys.argv[1] == "--view": show_pdf_viewer()
else: main_cli_loop()`.  `args` are the command-line arguments after the
script name (`sys.argv[1:]`). -/
def mainDispatch (args : List String) : ProgramMode :=
  match args with
  | a1 :: _ => if a1 = "--view" then .viewer else .repl
  | [] => .repl

/-! ## Helper lemmas -/

theorem mem_of_mem_tryRemovePath {oserr : String → Bool} {fs : List String}
    {p q : String} (h : q ∈ tryRemovePath oserr fs p) : q ∈ fs := by
  unfold tryRemovePath os_remove at h
  by_cases hp : p ∈ fs
  · simp only [hp, if_pos] at h
    by_cases he : oserr p
    · simpa [hp, he] using h
    · simp only [hp, he] at h
      simp at h
      exact h.1
  · simpa [hp] using h

theorem not_mem_tryRemovePath_self {oserr : String → Bool} {fs : List String}
    {p : String} (he : oserr p = false) : p ∉ tryRemovePath oserr fs p := by
  unfold tryRemovePath os_remove
  by_cases hp : p ∈ fs
  · simp only [hp, if_pos, he]
    intro hmem
    simp at hmem
  · simp [hp]

theorem cleanupArtifacts_not_mem (oserr : String → Bool) (fs : List String)
    (ext : String) (hext : ext ∈ artifactExts)
    (he : oserr (base_path ++ ext) = false) :
    (base_path ++ ext) ∉ cleanupArtifacts oserr fs := by
  simp only [artifactExts, List.mem_cons, List.not_mem_nil, or_false] at hext
  simp only [cleanupArtifacts, artifactExts, List.foldl_cons, List.foldl_nil]
  rcases hext with rfl | rfl | rfl | rfl
  · intro hmem
    exact not_mem_tryRemovePath_self he
      (mem_of_mem_tryRemovePath (mem_of_mem_tryRemovePath
        (mem_of_mem_tryRemovePath hmem)))
  · intro hmem
    exact not_mem_tryRemovePath_self he
      (mem_of_mem_tryRemovePath (mem_of_mem_tryRemovePath hmem))
  · intro hmem
    exact not_mem_tryRemovePath_self he (mem_of_mem_tryRemovePath hmem)
  · exact not_mem_tryRemovePath_self he

theorem pyLower_pyStrip_empty : pyLower (pyStrip "") = "" := rfl

theorem all_of_all_dropWhile {p : Char → Bool} :
    ∀ {l : List Char}, (∀ a ∈ l.dropWhile p, p a) → ∀ a ∈ l, p a := by
  intro l
  induction l with
  | nil => simp
  | cons x t ih =>
    intro h a ha
    rw [List.dropWhile_cons] at h
    by_cases hx : p x
    · simp only [hx, if_true] at h
      rcases List.mem_cons.mp ha with rfl | hat
      · exact hx
      · exact ih h a hat
    · simp only [hx, if_false] at h
      exact h a ha

theorem all_whitespace_of_pyStrip_empty {s : String} (h : pyStrip s = "") :
    ∀ c ∈ s.data, c.isWhitespace := by
  have hl : (((s.data.dropWhile Char.isWhitespace).reverse.dropWhile
      Char.isWhitespace)).reverse = ([] : List Char) := congrArg String.data h
  rw [List.reverse_eq_nil_iff, List.dropWhile_eq_nil_iff] at hl
  exact all_of_all_dropWhile (fun a ha => hl a (List.mem_reverse.mpr ha))

theorem pyStrip_pyRstripNewlines_empty {s : String} (h : pyStrip s = "") :
    pyStrip (pyRstripNewlines s) = "" := by
  have hall := all_whitespace_of_pyStrip_empty h
  have hall2 : ∀ c ∈ (pyRstripNewlines s).data, c.isWhitespace := by
    intro c hc
    apply hall
    have hc' : c ∈ s.data.reverse.dropWhile (fun x => x = '\n') :=
      List.mem_reverse.mp hc
    exact List.mem_reverse.mp (List.Sublist.mem hc' (List.dropWhile_sublist _))
  have h1 : (pyRstripNewlines s).data.dropWhile Char.isWhitespace = [] :=
    List.dropWhile_eq_nil_iff.mpr hall2
  unfold pyStrip
  rw [h1]
  rfl

/-! ## Claim theorems: REPL loop -/

/-- C2: for every non-empty line buffer, when the REPL receives the
compile sentinel it invokes the compiler exactly once with a snippet
equal to the buffer's lines joined by newline characters, and the buffer
is empty immediately after that invocation. -/
theorem sentinel_compiles_joined_buffer_once (rmErr : Bool) (ws : Workspace)
    (buf : List String) (s : String) (hbuf : buf ≠ [])
    (hs : pyLower (pyStrip s) = ":c") :
    replStep rmErr ⟨buf, ws⟩ (.line s) =
      { state := ⟨[], ws⟩
        compiles := [String.intercalate "\n" buf]
        printed := []
        exited := false } := by
  have hne : s ≠ "" := fun he => by
    subst he
    exact absurd hs (by decide)
  simp [replStep, hne, hs, hbuf]

/-- C2 witness: two buffered lines followed by the sentinel line
`":c\n"` produce one compile of `"a\nb"` and an empty buffer. -/
theorem sentinel_compiles_joined_buffer_once_witness :
    replStep false ⟨["a", "b"], ⟨false, []⟩⟩ (.line ":c\n") =
      { state := ⟨[], ⟨false, []⟩⟩
        compiles := ["a\nb"]
        printed := []
        exited := false } :=
  sentinel_compiles_joined_buffer_once false ⟨false, []⟩ ["a", "b"] ":c\n"
    (by decide) (by decide)

/-- C3 counterexample: the sentinel the code compares against is `":c"`,
not `"compile now"`: with a non-empty buffer, the line `"compile now\n"`
(whose trimmed, lowercased form is exactly `"compile now"`) is appended
rather than triggering a compile, while the line `":c\n"` (whose
trimmed, lowercased form is not `"compile now"`) does trigger one. -/
theorem sentinel_is_not_compile_now :
    pyLower (pyStrip "compile now\n") = "compile now" ∧
    (replStep false ⟨["x"], ⟨false, []⟩⟩ (.line "compile now\n")).compiles = [] ∧
    pyLower (pyStrip ":c\n") ≠ "compile now" ∧
    (replStep false ⟨["x"], ⟨false, []⟩⟩ (.line ":c\n")).compiles ≠ [] := by
  decide

/-- C3 (amended): for every input line read by the REPL, that line
triggers a compile attempt (given a non-empty buffer) exactly when the
line, trimmed of surrounding whitespace and compared case-insensitively,
equals the sentinel `":c"`. -/
theorem compile_triggered_iff_sentinel (rmErr : Bool) (ws : Workspace)
    (buf : List String) (s : String) (hbuf : buf ≠ []) :
    (replStep rmErr ⟨buf, ws⟩ (.line s)).compiles ≠ [] ↔
      pyLower (pyStrip s) = ":c" := by
  by_cases hne : s = ""
  · subst hne
    have hc : (replStep rmErr ⟨buf, ws⟩ (.line "")).compiles = [] := by
      simp [replStep, replExit]
    rw [hc]
    simp only [ne_eq, not_true_eq_false, false_iff]
    decide
  · by_cases hsent : pyLower (pyStrip s) = ":c"
    · simp [replStep, hne, hsent, hbuf]
    · simp [replStep, hne, hsent]

/-- C3 witness: with the non-empty buffer `["x"]`, the line `":c\n"`
triggers a compile and its trimmed lowercase form is `":c"`. -/
theorem compile_triggered_iff_sentinel_witness :
    (replStep false ⟨["x"], ⟨false, []⟩⟩ (.line ":c\n")).compiles ≠ [] ↔
      pyLower (pyStrip ":c\n") = ":c" :=
  compile_triggered_iff_sentinel false ⟨false, []⟩ ["x"] ":c\n" (by decide)

/-- C6: when the REPL receives the compile sentinel while the line
buffer is empty, no compiler invocation occurs, a "nothing to compile"
notice is printed, and the loop continues. -/
theorem sentinel_on_empty_buffer_no_compile (rmErr : Bool) (ws : Workspace)
    (s : String) (hs : pyLower (pyStrip s) = ":c") :
    replStep rmErr ⟨[], ws⟩ (.line s) =
      { state := ⟨[], ws⟩
        compiles := []
        printed := ["No code to compile."]
        exited := false } := by
  have hne : s ≠ "" := fun he => by
    subst he
    exact absurd hs (by decide)
  simp [replStep, hne, hs]

/-- C6 witness: the sentinel line `":c\n"` on an empty buffer prints the
notice and compiles nothing. -/
theorem sentinel_on_empty_buffer_no_compile_witness :
    replStep false ⟨[], ⟨false, []⟩⟩ (.line ":c\n") =
      { state := ⟨[], ⟨false, []⟩⟩
        compiles := []
        printed := ["No code to compile."]
        exited := false } :=
  sentinel_on_empty_buffer_no_compile false ⟨false, []⟩ ":c\n" (by decide)

/-- C9: a line consisting only of a newline (or only whitespace) is not
end-of-input and not the sentinel, so it is appended to the buffer (as an
empty or whitespace string, still whitespace-only after the trailing
newlines are stripped) and makes the buffer count as non-empty;
consequently a sentinel issued after it does invoke the compiler. -/
theorem blank_line_appended_and_compilable (rmErr : Bool) (ws : Workspace)
    (buf : List String) (s : String) (hne : s ≠ "") (hws : pyStrip s = "") :
    replStep rmErr ⟨buf, ws⟩ (.line s) =
      { state := ⟨buf ++ [pyRstripNewlines s], ws⟩
        compiles := []
        printed := []
        exited := false } ∧
    pyStrip (pyRstripNewlines s) = "" ∧
    buf ++ [pyRstripNewlines s] ≠ [] ∧
    (replStep rmErr ⟨buf ++ [pyRstripNewlines s], ws⟩ (.line ":c")).compiles =
      [String.intercalate "\n" (buf ++ [pyRstripNewlines s])] := by
  have hsent : pyLower (pyStrip s) ≠ ":c" := by
    rw [hws]
    decide
  refine ⟨by simp [replStep, hne, hsent], pyStrip_pyRstripNewlines_empty hws, by simp, ?_⟩
  have h1 : (":c" : String) ≠ "" := by decide
  have h2 : pyLower (pyStrip ":c") = ":c" := by decide
  simp [replStep, h1, h2]

/-- C9 witness: from an empty buffer, the line `"\n"` is appended as
`""`; the sentinel then compiles the whitespace-only snippet `""`. -/
theorem blank_line_appended_and_compilable_witness :
    replStep false ⟨[], ⟨false, []⟩⟩ (.line "\n") =
      { state := ⟨[""], ⟨false, []⟩⟩
        compiles := []
        printed := []
        exited := false } ∧
    pyStrip (pyRstripNewlines "\n") = "" ∧
    [pyRstripNewlines "\n"] ≠ ([] : List String) ∧
    (replStep false ⟨[""], ⟨false, []⟩⟩ (.line ":c")).compiles = [""] := by
  have h := blank_line_appended_and_compilable false ⟨false, []⟩ [] "\n"
    (by decide) (by decide)
  exact h

/-- C8: on keyboard interrupt or end-of-input during the REPL's read,
the loop prints an exit notice, removes the temp workspace directory so
that it no longer exists afterward (even if non-empty; when removal
fails the error is swallowed and the iteration still exits normally),
and terminates. -/
theorem exit_removes_workspace (buf files : List String) (rmErr : Bool) :
    (replStep false ⟨buf, ⟨true, files⟩⟩ .interrupt).state.ws = ⟨false, []⟩ ∧
    (replStep false ⟨buf, ⟨true, files⟩⟩ (.line "")).state.ws = ⟨false, []⟩ ∧
    (replStep rmErr ⟨buf, ⟨true, files⟩⟩ .interrupt).printed = ["\nExiting."] ∧
    (replStep rmErr ⟨buf, ⟨true, files⟩⟩ .interrupt).exited = true ∧
    (replStep rmErr ⟨buf, ⟨true, files⟩⟩ (.line "")).printed = ["\nExiting."] ∧
    (replStep rmErr ⟨buf, ⟨true, files⟩⟩ (.line "")).exited = true := by
  refine ⟨?_, ?_, ?_, ?_, ?_, ?_⟩ <;>
    simp [replStep, replExit, shutil_rmtree]

/-! ## Claim theorems: compiler invoker -/

/-- C1 counterexample: when the compiler exits zero but creates no PDF,
the early `return` (line 147 of the source) skips the cleanup loop, so
the freshly written `.tex` artifact remains in the temp workspace even
though no deletion error occurred. -/
theorem missing_pdf_skips_cleanup :
    (run_latex_compiler ⟨⟨0, "", ""⟩, []⟩ false (fun _ => false) []).fs =
      [base_path ++ ".tex"] ∧
    ".tex" ∈ artifactExts := by
  decide

/-- C1 (amended): for every compile attempt in which the compiler exits
non-zero, or exits zero with the PDF present, if no deletion error
occurs on the artifact paths then after the invocation none of the four
generated artifact files remain in the temp workspace; and deletion
errors are suppressed, in that the observable events of the attempt are
identical no matter which deletions fail.  (In the remaining case —
exit zero but no PDF — the invoker returns before the cleanup loop and
the `.tex` artifact remains.) -/
theorem cleanup_after_compile (beh : CompilerBehavior) (viewerFails : Bool)
    (oserr : String → Bool) (fs0 : List String)
    (hoserr : ∀ ext ∈ artifactExts, oserr (base_path ++ ext) = false)
    (hok : beh.result.returncode ≠ 0 ∨ pdf_path ∈ fsAfterCompile beh fs0) :
    (∀ ext ∈ artifactExts,
      (base_path ++ ext) ∉ (run_latex_compiler beh viewerFails oserr fs0).fs) ∧
    (∀ oserr' : String → Bool,
      (run_latex_compiler beh viewerFails oserr' fs0).events =
        (run_latex_compiler beh viewerFails oserr fs0).events) := by
  constructor
  · intro ext hext
    by_cases hrc : beh.result.returncode ≠ 0
    · simp only [run_latex_compiler, if_pos hrc]
      exact cleanupArtifacts_not_mem oserr _ ext hext (hoserr ext hext)
    · have hpdf : pdf_path ∈ fsAfterCompile beh fs0 := hok.resolve_left hrc
      simp only [run_latex_compiler, if_neg hrc]
      simp only [hpdf, not_true_eq_false, if_false, ite_false]
      exact cleanupArtifacts_not_mem oserr _ ext hext (hoserr ext hext)
  · intro oserr'
    by_cases hrc : beh.result.returncode ≠ 0
    · simp [run_latex_compiler, hrc]
    · by_cases hpdf : pdf_path ∈ fsAfterCompile beh fs0
      · simp [run_latex_compiler, hrc, hpdf]
      · simp [run_latex_compiler, hrc, hpdf]

/-- C1 witness: after a failing compile (exit status 1, no deletion
errors) the `.tex` artifact is gone from the workspace. -/
theorem cleanup_after_compile_witness :
    (base_path ++ ".tex") ∉
      (run_latex_compiler ⟨⟨1, "", ""⟩, []⟩ false (fun _ => false) []).fs :=
  (cleanup_after_compile ⟨⟨1, "", ""⟩, []⟩ false (fun _ => false) []
    (by decide) (Or.inl (by decide))).1 ".tex" (by decide)

/-- C4 counterexample: the code scans only the captured stdout, not the
combined stdout/stderr: for a non-zero exit with empty stdout and a
`!`-marker line on stderr, the code reports the generic unknown-error
text, while a scan of the combined output would have found the marker
line `"! Oops"`. -/
theorem error_scan_ignores_stderr :
    (run_latex_compiler ⟨⟨1, "", "! Oops"⟩, []⟩ false (fun _ => false) []).events =
      [.printed "Compiling...",
       .printed "\n--- LaTeX Compilation Error ---",
       .printed unknownErrorText] ∧
    errorSnippetCombinedSpec ⟨1, "", "! Oops"⟩ = "! Oops" ∧
    unknownErrorText ≠ "! Oops" := by
  decide

/-- C4 (amended): for every compiler run that exits non-zero, the
invoker scans the captured stdout (stderr is captured separately and not
scanned) for the first line beginning with `!`; if such a line exists at
index `i`, the reported error snippet equals stdout lines `i` through
`i+4` (or fewer if the output ends sooner), and if no such line exists
anywhere in stdout the reported message is the generic unknown-error
text. -/
theorem error_report_scans_stdout (beh : CompilerBehavior) (viewerFails : Bool)
    (oserr : String → Bool) (fs0 : List String)
    (h : beh.result.returncode ≠ 0) :
    (run_latex_compiler beh viewerFails oserr fs0).events =
      [.printed "Compiling...",
       .printed "\n--- LaTeX Compilation Error ---",
       .printed (errorSnippetFromText beh.result.stdout)] ∧
    (∀ i : Nat,
      (∃ hi : i < (pySplitlines beh.result.stdout).length,
        (fun l => pyStartsWith l "!") (pySplitlines beh.result.stdout)[i] = true ∧
        ∀ (j : Nat) (hj : j < i),
          ¬(fun l => pyStartsWith l "!") (pySplitlines beh.result.stdout)[j] = true) →
      errorSnippetFromText beh.result.stdout =
        String.intercalate "\n"
          (((pySplitlines beh.result.stdout).drop i).take 5)) ∧
    ((∀ l ∈ pySplitlines beh.result.stdout, pyStartsWith l "!" = false) →
      errorSnippetFromText beh.result.stdout = unknownErrorText) := by
  refine ⟨by simp [run_latex_compiler, h], ?_, ?_⟩
  · intro i hex
    have hfind : (pySplitlines beh.result.stdout).findIdx?
        (fun l => pyStartsWith l "!") = some i :=
      List.findIdx?_eq_some_iff_getElem.mpr hex
    simp [errorSnippetFromText, hfind]
  · intro hall
    have hfind : (pySplitlines beh.result.stdout).findIdx?
        (fun l => pyStartsWith l "!") = none :=
      List.findIdx?_eq_none_iff.mpr hall
    simp [errorSnippetFromText, hfind]

/-- C4 witness: a failing run whose stdout holds a `!`-marker line at
index 1 followed by more than four lines reports exactly that line and
the four after it. -/
theorem error_report_scans_stdout_witness :
    (run_latex_compiler ⟨⟨1, "x\n! err\nl1\nl2\nl3\nl4\nl5", ""⟩, []⟩ false
        (fun _ => false) []).events =
      [.printed "Compiling...",
       .printed "\n--- LaTeX Compilation Error ---",
       .printed (errorSnippetFromText "x\n! err\nl1\nl2\nl3\nl4\nl5")] :=
  (error_report_scans_stdout ⟨⟨1, "x\n! err\nl1\nl2\nl3\nl4\nl5", ""⟩, []⟩ false
    (fun _ => false) [] (by decide)).1

/-- C5: for every compiler run that exits with status zero but leaves no
PDF file at the expected output path, the invoker reports the
missing-PDF error and does not launch a viewer process. -/
theorem missing_pdf_reported_no_viewer (beh : CompilerBehavior)
    (viewerFails : Bool) (oserr : String → Bool) (fs0 : List String)
    (hrc : beh.result.returncode = 0)
    (hpdf : pdf_path ∉ fsAfterCompile beh fs0) :
    (run_latex_compiler beh viewerFails oserr fs0).events =
      [.printed "Compiling...",
       .printed "Compilation successful! Displaying preview...",
       .printed "Error: PDF file was not created by the compiler."] ∧
    CompileEvent.viewerLaunched ∉
      (run_latex_compiler beh viewerFails oserr fs0).events := by
  have hev : (run_latex_compiler beh viewerFails oserr fs0).events =
      [.printed "Compiling...",
       .printed "Compilation successful! Displaying preview...",
       .printed "Error: PDF file was not created by the compiler."] := by
    simp [run_latex_compiler, hrc, hpdf]
  refine ⟨hev, ?_⟩
  rw [hev]
  simp

/-- C5 witness: a zero-exit run that creates no files reports the
missing-PDF error and launches nothing. -/
theorem missing_pdf_reported_no_viewer_witness :
    CompileEvent.viewerLaunched ∉
      (run_latex_compiler ⟨⟨0, "", ""⟩, []⟩ false (fun _ => false) []).events :=
  (missing_pdf_reported_no_viewer ⟨⟨0, "", ""⟩, []⟩ false (fun _ => false) []
    (by decide) (by decide)).2

/-! ## Claim theorems: viewer process and entry point -/

/-- C7: when the viewer process reads zero bytes from its standard input
(end-of-stream with empty input), it returns immediately and silently
without opening the PDF, creating any window, or producing any output:
its action trace is empty, whatever the decoder would do. -/
theorem empty_stdin_no_viewer_actions (decode : List Nat → Except String PdfPage) :
    show_pdf_viewer decode [] = [] := by
  simp [show_pdf_viewer]

/-- C10: program mode dispatch at the entry point selects viewer mode
exactly when the first command-line argument equals `"--view"`; every
other invocation (no arguments, or any other first argument) starts the
interactive REPL, with unrecognized arguments silently ignored. -/
theorem dispatch_selects_viewer_iff_view_flag (args : List String) :
    (mainDispatch args = .viewer ↔ args.head? = some "--view") ∧
    (mainDispatch args ≠ .viewer → mainDispatch args = .repl) := by
  cases args with
  | nil => simp [mainDispatch]
  | cons a t =>
    by_cases h : a = "--view" <;> simp [mainDispatch, h]

end LatexCli
